import Mathlib

/-!
Shallow embedding of `automl_utils/dataloader/spec.py`: the `Phase` and
`Split` enumerations, the validated `BatchConfig` value object, and the
`DataloaderSpec` abstract base (configuration lookup table plus the
`get_dataloader` factory method), together with theorems about them.

Modelling conventions:
- Python `int` is `Int`; the `search_split` float is `Rat` (the module only
  compares it against 0 and 1 and passes it through; no float arithmetic).
- A transform (`Optional[Callable]`) is an opaque token (`Transform`), since
  the module never applies transforms, only stores and forwards them.
- A kwargs value (`Any`) is `PyVal`: an integer (the only shape the module
  ever inspects, via the `batch_size` comparison) or an opaque object token.
- A `torch.utils.data.Dataset` is a container of opaque samples with a
  defined length (`Dataset`); Python truthiness of an `Optional[Dataset]`
  (`not dset`) is `None`-ness or zero length.
- `raise ValueError` is `Except.error` with a structured error carrying the
  values the message cites; the dict lookup failure `KeyError` is `keyError`.
- The abstract methods a concrete subclass must supply are a record of
  capabilities (`SubclassImpl`).
-/

namespace AutomlUtils

/-- `Phase` enum from `spec.py`: SEARCH or EVAL. -/
inductive Phase
  | SEARCH
  | EVAL
deriving DecidableEq, Repr

/-- `Split` enum from `spec.py`: TRAIN or VAL. -/
inductive Split
  | TRAIN
  | VAL
deriving DecidableEq, Repr

/-- Iteration order of `for p in Phase` (enum definition order). -/
def phaseList : List Phase := [Phase.SEARCH, Phase.EVAL]

/-- Iteration order of `for s in Split` (enum definition order). -/
def splitList : List Split := [Split.TRAIN, Split.VAL]

/-- Opaque token standing for a Python callable (a transform). -/
abbrev Transform := String

/-- A Python value appearing in `kwargs`: an integer, or an opaque object.
The module only ever compares a kwargs value against an `int` batch size. -/
inductive PyVal
  | int (n : Int)
  | obj (tag : String)
deriving DecidableEq, Repr

/-- Structured counterpart of the `ValueError`s raised by `spec.py` (each
constructor carries exactly the values the message cites) plus the
`KeyError` a dict lookup would raise on a missing key. -/
inductive DataErr
  | invalidBatchSize (received : Int)
  | invalidSearchSplit (received : Rat)
  | conflictingBatchSize (kwargsValue : PyVal) (configValue : Int)
  | keyError (phase : Phase) (split : Split)
deriving DecidableEq, Repr

/-- The `BatchConfig` dataclass: batch size plus two optional transforms. -/
structure BatchConfig where
  batch_size : Int
  input_transform : Option Transform
  target_transform : Option Transform
deriving DecidableEq, Repr

/-- `BatchConfig` construction including `__post_init__`: stores the fields,
then raises `ValueError` unless `batch_size > 0`. -/
def BatchConfig.make (batch_size : Int) (input_transform : Option Transform)
    (target_transform : Option Transform) : Except DataErr BatchConfig :=
  if batch_size ≤ 0 then
    Except.error (DataErr.invalidBatchSize batch_size)
  else
    Except.ok ⟨batch_size, input_transform, target_transform⟩

/-- External dataset abstraction: a container of opaque samples with a
defined length (`__len__`). -/
structure Dataset where
  data : List String
deriving DecidableEq, Repr

/-- The exact argument tuple `load_dataset` is invoked with.
`search_split = none` means the keyword argument was omitted, so the Python
parameter takes its declared default `None`. -/
structure LoadCall where
  phase : Phase
  split : Split
  path : String
  input_transform : Option Transform
  target_transform : Option Transform
  search_split : Option Rat
  download : Bool
deriving DecidableEq, Repr

/-- The three abstract members a concrete `DataloaderSpec` subclass must
provide: `load_dataset`, `get_default_config`, `get_default_search_split`. -/
structure SubclassImpl where
  load_dataset : LoadCall → Option Dataset
  get_default_config : Phase → Split → BatchConfig
  get_default_search_split : Rat

/-- External `torch.utils.data.DataLoader`, modelled as the record of its
constructor arguments: the dataset and the keyword arguments it received. -/
structure DataLoader where
  dset : Dataset
  kwargs : String → Option PyVal

/-- Instance state of a `DataloaderSpec`: the resolved `_search_split` and
the `_config_map` dict (an association list keyed by `(Phase, Split)`). -/
structure DataloaderSpec where
  _search_split : Rat
  _config_map : List ((Phase × Split) × BatchConfig)

/-- Python dict lookup `d[(phase, split)]` over the association list. -/
def lookupPS (m : List ((Phase × Split) × BatchConfig)) (key : Phase × Split) :
    Option BatchConfig :=
  match m with
  | [] => none
  | (k, v) :: rest => if key = k then some v else lookupPS rest key

/-- Body of the `__init__` loop for one `(p, s)` slot:
`config_map[(p, s)]` if `(p, s) in config_map`, else
`self.get_default_config(p, s)`. The `config_map or {}` defaulting of a
`None` argument is the outer `match`. -/
def resolveConfigEntry (impl : SubclassImpl)
    (config_map : Option (Phase × Split → Option BatchConfig))
    (p : Phase) (s : Split) : BatchConfig :=
  match (match config_map with | none => none | some m => m (p, s)) with
  | some c => c
  | none => impl.get_default_config p s

/-- The `__init__` double loop `for p in Phase: for s in Split:` building
`self._config_map`, in iteration order. -/
def buildConfigEntries (impl : SubclassImpl)
    (config_map : Option (Phase × Split → Option BatchConfig)) :
    List ((Phase × Split) × BatchConfig) :=
  phaseList.flatMap fun p => splitList.map fun s =>
    ((p, s), resolveConfigEntry impl config_map p s)

/-- `DataloaderSpec.__init__`: resolve `search_split` (default from the
subclass when `None`; range-check `[0, 1]` only when explicitly supplied),
then populate all four `_config_map` slots. -/
def DataloaderSpec.init (impl : SubclassImpl) (search_split : Option Rat)
    (config_map : Option (Phase × Split → Option BatchConfig)) :
    Except DataErr DataloaderSpec :=
  match search_split with
  | none =>
      Except.ok ⟨impl.get_default_search_split, buildConfigEntries impl config_map⟩
  | some v =>
      if v < 0 ∨ 1 < v then
        Except.error (DataErr.invalidSearchSplit v)
      else
        Except.ok ⟨v, buildConfigEntries impl config_map⟩

/-- `DataloaderSpec.get_config`: the dict lookup `self._config_map[(phase, split)]`. -/
def DataloaderSpec.get_config (self : DataloaderSpec) (phase : Phase) (split : Split) :
    Option BatchConfig :=
  lookupPS self._config_map (phase, split)

/-- The read-only `search_split` property. -/
def DataloaderSpec.search_split (self : DataloaderSpec) : Rat :=
  self._search_split

/-- Lines 175-178 of `spec.py`: the argument tuple passed to
`self.load_dataset`, with `ds_args = {search_split: self.search_split}`
exactly when `phase == Phase.SEARCH`, omitted otherwise. -/
def DataloaderSpec.loadCall (self : DataloaderSpec) (config : BatchConfig)
    (phase : Phase) (split : Split) (path : String) (download : Bool) : LoadCall :=
  { phase := phase
    split := split
    path := path
    input_transform := config.input_transform
    target_transform := config.target_transform
    search_split := if phase = Phase.SEARCH then some self._search_split else none
    download := download }

/-- Line 188 of `spec.py`:
`kwargs = \x7b"batch_size": config.batch_size, **(kwargs or \x7b\x7d)\x7d` —
the caller's entry wins at `"batch_size"` when present, otherwise the
config's batch size is inserted; every other key comes from `kwargs`. -/
def mergeKwargs (config_batch_size : Int) (kwargs : String → Option PyVal) :
    String → Option PyVal :=
  fun k =>
    match kwargs k with
    | some v => some v
    | none => if k = "batch_size" then some (PyVal.int config_batch_size) else none

/-- Lines 179-189 of `spec.py`, as a function of the `load_dataset` result:
`if not dset: return None` (Python falsiness of `Optional[Dataset]`: `None`
or length 0); then the `batch_size` conflict check against `kwargs`; finally
the `DataLoader` construction with the merged kwargs. -/
def handleDataset (config : BatchConfig) (kwargs : String → Option PyVal) :
    Option Dataset → Except DataErr (Option DataLoader)
  | none => Except.ok none
  | some d =>
      if d.data.length = 0 then
        Except.ok none
      else
        match kwargs "batch_size" with
        | some v =>
            if v ≠ PyVal.int config.batch_size then
              Except.error (DataErr.conflictingBatchSize v config.batch_size)
            else
              Except.ok (some ⟨d, mergeKwargs config.batch_size kwargs⟩)
        | none =>
            Except.ok (some ⟨d, mergeKwargs config.batch_size kwargs⟩)

/-- `DataloaderSpec.get_dataloader`, instrumented: alongside the result it
returns the list of invocations of `self.load_dataset` (always exactly one,
recorded with the precise arguments passed). Control flow mirrors the
source: resolve the config, invoke `load_dataset` on the assembled argument
tuple, then run `handleDataset` on its result. -/
def DataloaderSpec.get_dataloader_traced (impl : SubclassImpl) (self : DataloaderSpec)
    (phase : Phase) (split : Split) (path : String) (download : Bool)
    (kwargs : String → Option PyVal) :
    Except DataErr (Option DataLoader) × List LoadCall :=
  match self.get_config phase split with
  | none => (Except.error (DataErr.keyError phase split), [])
  | some config =>
      let call := self.loadCall config phase split path download
      (handleDataset config kwargs (impl.load_dataset call), [call])

/-- `DataloaderSpec.get_dataloader`: the result component. -/
def DataloaderSpec.get_dataloader (impl : SubclassImpl) (self : DataloaderSpec)
    (phase : Phase) (split : Split) (path : String) (download : Bool)
    (kwargs : String → Option PyVal) : Except DataErr (Option DataLoader) :=
  (self.get_dataloader_traced impl phase split path download kwargs).1

/-- One public read operation on a constructed `DataloaderSpec`. -/
inductive ReadOp
  | getConfigOp (phase : Phase) (split : Split)
  | searchSplitOp
  | getDataloaderOp (phase : Phase) (split : Split) (path : String)
      (download : Bool) (kwargs : String → Option PyVal)

/-- Result of one read operation. -/
inductive ReadResult
  | configR (c : Option BatchConfig)
  | splitR (v : Rat)
  | loaderR (r : Except DataErr (Option DataLoader))

/-- Execute one read operation as a state transformer: the returned state is
the instance state the method leaves behind. The three method bodies contain
no assignment to `self`, so each returns `self` unchanged. -/
def runOp (impl : SubclassImpl) (self : DataloaderSpec) :
    ReadOp → ReadResult × DataloaderSpec
  | ReadOp.getConfigOp p s => (ReadResult.configR (self.get_config p s), self)
  | ReadOp.searchSplitOp => (ReadResult.splitR self.search_split, self)
  | ReadOp.getDataloaderOp p s path download kw =>
      (ReadResult.loaderR (self.get_dataloader impl p s path download kw), self)

/-- Execute a sequence of read operations, threading the instance state. -/
def runOps (impl : SubclassImpl) (self : DataloaderSpec) : List ReadOp → DataloaderSpec
  | [] => self
  | op :: rest => runOps impl (runOp impl self op).2 rest

/-! Concrete subclass implementations used to instantiate the theorems. -/

/-- A concrete subclass: every default config has batch size 96, the default
search split is 1/2, and `load_dataset` always yields a two-sample dataset. -/
def exampleImpl : SubclassImpl :=
  { load_dataset := fun _ => some ⟨["s0", "s1"]⟩
    get_default_config := fun _ _ => ⟨96, none, none⟩
    get_default_search_split := 1/2 }

/-- A partial `config_map` override: only the `(SEARCH, TRAIN)` slot, with
batch size 32. -/
def exampleOverride : Phase × Split → Option BatchConfig :=
  fun ps => if ps = (Phase.SEARCH, Split.TRAIN) then some ⟨32, none, none⟩ else none

/-- The spec instance `exampleImpl` yields for
`init (search_split := none) (config_map := some exampleOverride)`. -/
def exampleSpec : DataloaderSpec :=
  ⟨1/2, buildConfigEntries exampleImpl (some exampleOverride)⟩

/-- A concrete subclass whose `load_dataset` returns a NON-absent dataset of
length zero (`Some` of an empty dataset), with default batch size 32. -/
def emptyDatasetImpl : SubclassImpl :=
  { load_dataset := fun _ => some ⟨[]⟩
    get_default_config := fun _ _ => ⟨32, none, none⟩
    get_default_search_split := 1/2 }

/-- The spec instance `emptyDatasetImpl` yields with no overrides. -/
def emptyDatasetSpec : DataloaderSpec :=
  ⟨1/2, buildConfigEntries emptyDatasetImpl none⟩

/-- A concrete subclass whose `load_dataset` always returns the absence
marker `None`. -/
def absentImpl : SubclassImpl :=
  { load_dataset := fun _ => none
    get_default_config := fun _ _ => ⟨32, none, none⟩
    get_default_search_split := 1/2 }

/-- The spec instance `absentImpl` yields with no overrides. -/
def absentSpec : DataloaderSpec :=
  ⟨1/2, buildConfigEntries absentImpl none⟩

/-- Kwargs carrying `batch_size=64` and nothing else. -/
def kwargs64 : String → Option PyVal :=
  fun k => if k = "batch_size" then some (PyVal.int 64) else none

/-- Lookup in the built config map always succeeds and yields the resolved
entry for that slot (the map holds all four `(Phase, Split)` keys). -/
theorem lookupPS_buildConfigEntries (impl : SubclassImpl)
    (cm : Option (Phase × Split → Option BatchConfig)) (p : Phase) (s : Split) :
    lookupPS (buildConfigEntries impl cm) (p, s) =
      some (resolveConfigEntry impl cm p s) := by
  cases p <;> cases s <;> rfl

/-- A successful `init` stores exactly the built config map. -/
theorem init_ok_config_map (impl : SubclassImpl) (ss : Option Rat)
    (cm : Option (Phase × Split → Option BatchConfig)) (spec : DataloaderSpec)
    (h : DataloaderSpec.init impl ss cm = Except.ok spec) :
    spec._config_map = buildConfigEntries impl cm := by
  cases ss with
  | none =>
      simp only [DataloaderSpec.init, Except.ok.injEq] at h
      rw [← h]
  | some v =>
      simp only [DataloaderSpec.init] at h
      split at h
      · exact absurd h (by simp)
      · simp only [Except.ok.injEq] at h
        rw [← h]

/-- Claim C1: after any construction (with a possibly partial, possibly
omitted `config_map` override), `get_config (p, s)` succeeds for every one of
the four `(Phase, Split)` pairs and returns the caller-supplied override for
that pair when present, and the subclass default otherwise. -/
theorem get_config_override_or_default (impl : SubclassImpl) (ss : Option Rat)
    (cm : Option (Phase × Split → Option BatchConfig)) (spec : DataloaderSpec)
    (h : DataloaderSpec.init impl ss cm = Except.ok spec) (p : Phase) (s : Split) :
    spec.get_config p s =
      some (((cm.getD fun _ => none) (p, s)).getD (impl.get_default_config p s)) := by
  rw [DataloaderSpec.get_config, init_ok_config_map impl ss cm spec h,
    lookupPS_buildConfigEntries]
  cases cm with
  | none => rfl
  | some m =>
      cases hm : m (p, s) <;>
        simp [resolveConfigEntry, hm]

/-- Witness for C1: with the override at `(SEARCH, TRAIN)` set to batch size
32 and defaults at 96, `get_config` returns the override there and the
default at `(EVAL, VAL)`. -/
theorem get_config_override_or_default_witness :
    exampleSpec.get_config Phase.SEARCH Split.TRAIN = some ⟨32, none, none⟩ ∧
    exampleSpec.get_config Phase.EVAL Split.VAL = some ⟨96, none, none⟩ := by
  have h1 := get_config_override_or_default exampleImpl none (some exampleOverride)
    exampleSpec rfl Phase.SEARCH Split.TRAIN
  have h2 := get_config_override_or_default exampleImpl none (some exampleOverride)
    exampleSpec rfl Phase.EVAL Split.VAL
  exact ⟨by rw [h1]; rfl, by rw [h2]; rfl⟩

/-- A concrete subclass with default search split 4/5 and one-sample
datasets, used to exercise the search-split pass-through. -/
def splitImpl : SubclassImpl :=
  { load_dataset := fun _ => some ⟨["s0"]⟩
    get_default_config := fun _ _ => ⟨64, none, none⟩
    get_default_search_split := 4/5 }

/-- The spec instance `splitImpl` yields with no overrides. -/
def splitSpec : DataloaderSpec :=
  ⟨4/5, buildConfigEntries splitImpl none⟩

/-- When `get_config` resolves, `get_dataloader` is `handleDataset` applied
to the `load_dataset` result for the assembled argument tuple. -/
theorem get_dataloader_eq (impl : SubclassImpl) (spec : DataloaderSpec)
    (p : Phase) (s : Split) (path : String) (download : Bool)
    (kwargs : String → Option PyVal) (config : BatchConfig)
    (hc : spec.get_config p s = some config) :
    spec.get_dataloader impl p s path download kwargs =
      handleDataset config kwargs
        (impl.load_dataset (spec.loadCall config p s path download)) := by
  simp only [DataloaderSpec.get_dataloader, DataloaderSpec.get_dataloader_traced, hc]

/-- Claim C5: `BatchConfig` construction fails with the validation error
naming the offending value exactly when `batch_size ≤ 0`; for positive
`batch_size` it succeeds and stores the supplied value unchanged. -/
theorem batch_config_validation (bs : Int) (it tt : Option Transform) :
    (BatchConfig.make bs it tt = Except.error (DataErr.invalidBatchSize bs) ↔ bs ≤ 0) ∧
    (0 < bs → BatchConfig.make bs it tt = Except.ok ⟨bs, it, tt⟩) := by
  constructor
  · constructor
    · intro h
      by_contra hb
      simp [BatchConfig.make, hb] at h
    · intro h
      simp [BatchConfig.make, h]
  · intro h
    simp [BatchConfig.make, not_le.mpr h]

/-- Witness for C5: batch size 3 is stored unchanged; batch size 0 is
rejected with the error naming 0. -/
theorem batch_config_validation_witness :
    BatchConfig.make 3 none none = Except.ok ⟨3, none, none⟩ ∧
    BatchConfig.make 0 none none = Except.error (DataErr.invalidBatchSize 0) :=
  ⟨(batch_config_validation 3 none none).2 (by norm_num),
   (batch_config_validation 0 none none).1.mpr (by norm_num)⟩

/-- Claim C6: an explicitly supplied `search_split` outside `[0, 1]` makes
construction fail with the validation error naming the value; a value inside
`[0, 1]` inclusive is accepted and returned verbatim by the `search_split`
property. -/
theorem search_split_validation (impl : SubclassImpl) (v : Rat)
    (cm : Option (Phase × Split → Option BatchConfig)) :
    ((v < 0 ∨ 1 < v) →
      DataloaderSpec.init impl (some v) cm
        = Except.error (DataErr.invalidSearchSplit v)) ∧
    (0 ≤ v → v ≤ 1 →
      ∃ spec, DataloaderSpec.init impl (some v) cm = Except.ok spec ∧
        spec.search_split = v) := by
  constructor
  · intro h
    simp [DataloaderSpec.init, h]
  · intro h0 h1
    have hn : ¬(v < 0 ∨ 1 < v) := by
      rintro (h | h)
      · exact absurd h (not_lt.mpr h0)
      · exact absurd h (not_lt.mpr h1)
    exact ⟨⟨v, buildConfigEntries impl cm⟩, by simp [DataloaderSpec.init, hn], rfl⟩

/-- Witness for C6: `search_split = 2` is rejected naming 2;
`search_split = 1/4` is accepted and read back as 1/4. -/
theorem search_split_validation_witness :
    DataloaderSpec.init exampleImpl (some 2) none
      = Except.error (DataErr.invalidSearchSplit 2) ∧
    ∃ spec, DataloaderSpec.init exampleImpl (some (1/4)) none = Except.ok spec ∧
      spec.search_split = 1/4 :=
  ⟨(search_split_validation exampleImpl 2 none).1 (Or.inr (by norm_num)),
   (search_split_validation exampleImpl (1/4) none).2 (by norm_num) (by norm_num)⟩

/-- Claim C7: constructing with `search_split` omitted (`None`) always
succeeds — no range check is applied — and the resolved `search_split`
equals the subclass's `get_default_search_split()`, whatever that value is. -/
theorem default_search_split_resolution (impl : SubclassImpl)
    (cm : Option (Phase × Split → Option BatchConfig)) :
    ∃ spec, DataloaderSpec.init impl none cm = Except.ok spec ∧
      spec.search_split = impl.get_default_search_split :=
  ⟨⟨impl.get_default_search_split, buildConfigEntries impl cm⟩, rfl, rfl⟩

/-- Claim C2 (counterexample to the claim as stated): a call in which
`load_dataset` returns a NON-absent dataset (of length zero) and whose
kwargs carry `batch_size=64` differing from the resolved config's 32 does
NOT fail — `get_dataloader` returns the absence marker, because the
falsiness guard fires before the conflict check. -/
theorem conflicting_batch_size_claim_counterexample :
    emptyDatasetImpl.load_dataset
        (emptyDatasetSpec.loadCall ⟨32, none, none⟩ Phase.EVAL Split.VAL "/data" false)
      ≠ none ∧
    emptyDatasetSpec.get_config Phase.EVAL Split.VAL = some ⟨32, none, none⟩ ∧
    kwargs64 "batch_size" = some (PyVal.int 64) ∧
    PyVal.int 64 ≠ PyVal.int 32 ∧
    emptyDatasetSpec.get_dataloader emptyDatasetImpl Phase.EVAL Split.VAL "/data" false
        kwargs64
      = Except.ok none :=
  ⟨by decide, rfl, rfl, by decide, rfl⟩

/-- Claim C2 (amended): when the kwargs carry a `batch_size` differing from
the resolved config's `batch_size` and `load_dataset` returns a truthy
dataset (non-absent AND of nonzero length), `get_dataloader` fails with the
conflict error citing both the caller-supplied value and the config's
batch size, and no dataloader is constructed. -/
theorem conflicting_batch_size_error (impl : SubclassImpl) (spec : DataloaderSpec)
    (p : Phase) (s : Split) (path : String) (download : Bool)
    (kwargs : String → Option PyVal) (config : BatchConfig) (d : Dataset) (v : PyVal)
    (hc : spec.get_config p s = some config)
    (hd : impl.load_dataset (spec.loadCall config p s path download) = some d)
    (hn : d.data.length ≠ 0)
    (hk : kwargs "batch_size" = some v)
    (hv : v ≠ PyVal.int config.batch_size) :
    spec.get_dataloader impl p s path download kwargs
      = Except.error (DataErr.conflictingBatchSize v config.batch_size) := by
  rw [get_dataloader_eq impl spec p s path download kwargs config hc, hd]
  simp [handleDataset, hn, hk, hv]

/-- Witness for the amended C2: two-sample dataset, config batch size 96,
kwargs `batch_size=64` → the conflict error citing 64 and 96. -/
theorem conflicting_batch_size_error_witness :
    exampleSpec.get_dataloader exampleImpl Phase.EVAL Split.VAL "/data" false kwargs64
      = Except.error (DataErr.conflictingBatchSize (PyVal.int 64) 96) :=
  conflicting_batch_size_error exampleImpl exampleSpec Phase.EVAL Split.VAL "/data" false
    kwargs64 ⟨96, none, none⟩ ⟨["s0", "s1"]⟩ (PyVal.int 64) rfl rfl (by decide) rfl
    (by decide)

/-- Claim C3: when `load_dataset` returns the absence marker `None`,
`get_dataloader` returns the absence marker for every kwargs — no dataloader
is constructed and the batch-size conflict check is never reached. -/
theorem absent_dataset_short_circuit (impl : SubclassImpl) (spec : DataloaderSpec)
    (p : Phase) (s : Split) (path : String) (download : Bool)
    (kwargs : String → Option PyVal) (config : BatchConfig)
    (hc : spec.get_config p s = some config)
    (hd : impl.load_dataset (spec.loadCall config p s path download) = none) :
    spec.get_dataloader impl p s path download kwargs = Except.ok none := by
  rw [get_dataloader_eq impl spec p s path download kwargs config hc, hd]
  simp [handleDataset]

/-- Witness for C3: `load_dataset` returns `None` while the kwargs carry a
conflicting `batch_size=64` (config is 32) — the result is still the absence
marker, with no error raised. -/
theorem absent_dataset_short_circuit_witness :
    absentSpec.get_dataloader absentImpl Phase.EVAL Split.VAL "/data" false kwargs64
      = Except.ok none :=
  absent_dataset_short_circuit absentImpl absentSpec Phase.EVAL Split.VAL "/data" false
    kwargs64 ⟨32, none, none⟩ rfl rfl

/-- Claim C4: `get_dataloader` invokes `load_dataset` exactly once, and the
`search_split` argument of that invocation is the instance's resolved
`search_split` when `phase == SEARCH` and is omitted (so the parameter takes
its default `None`) when `phase == EVAL`. -/
theorem search_split_passthrough (impl : SubclassImpl) (spec : DataloaderSpec)
    (p : Phase) (s : Split) (path : String) (download : Bool)
    (kwargs : String → Option PyVal) (config : BatchConfig)
    (hc : spec.get_config p s = some config) :
    (spec.get_dataloader_traced impl p s path download kwargs).2
        = [spec.loadCall config p s path download] ∧
    (spec.loadCall config p s path download).search_split
        = (if p = Phase.SEARCH then some spec.search_split else none) := by
  constructor
  · simp only [DataloaderSpec.get_dataloader_traced, hc]
  · rfl

/-- Witness for C4: with resolved search split 4/5, the single recorded
`load_dataset` invocation for phase SEARCH carries `search_split = 4/5`, and
for phase EVAL it carries no `search_split` argument. -/
theorem search_split_passthrough_witness :
    (splitSpec.get_dataloader_traced splitImpl Phase.SEARCH Split.TRAIN "/data" false
        (fun _ => none)).2
      = [splitSpec.loadCall ⟨64, none, none⟩ Phase.SEARCH Split.TRAIN "/data" false] ∧
    (splitSpec.loadCall ⟨64, none, none⟩ Phase.SEARCH Split.TRAIN "/data" false).search_split
      = some (4/5) ∧
    (splitSpec.loadCall ⟨64, none, none⟩ Phase.EVAL Split.VAL "/data" false).search_split
      = none := by
  have h1 := search_split_passthrough splitImpl splitSpec Phase.SEARCH Split.TRAIN "/data"
    false (fun _ => none) ⟨64, none, none⟩ rfl
  have h2 := search_split_passthrough splitImpl splitSpec Phase.EVAL Split.VAL "/data"
    false (fun _ => none) ⟨64, none, none⟩ rfl
  exact ⟨h1.1, by rw [h1.2]; rfl, by rw [h2.2]; rfl⟩

/-- Claim C8: a call that reaches dataloader construction (truthy dataset,
no batch-size conflict) constructs the `DataLoader` from that dataset with
merged kwargs whose `batch_size` is the resolved config's `batch_size`,
every other caller-supplied option passing through unchanged. -/
theorem merged_kwargs_batch_size (impl : SubclassImpl) (spec : DataloaderSpec)
    (p : Phase) (s : Split) (path : String) (download : Bool)
    (kwargs : String → Option PyVal) (config : BatchConfig) (d : Dataset)
    (hc : spec.get_config p s = some config)
    (hd : impl.load_dataset (spec.loadCall config p s path download) = some d)
    (hn : d.data.length ≠ 0)
    (hk : kwargs "batch_size" = none ∨
      kwargs "batch_size" = some (PyVal.int config.batch_size)) :
    spec.get_dataloader impl p s path download kwargs
        = Except.ok (some ⟨d, mergeKwargs config.batch_size kwargs⟩) ∧
    mergeKwargs config.batch_size kwargs "batch_size"
        = some (PyVal.int config.batch_size) ∧
    ∀ k, k ≠ "batch_size" → mergeKwargs config.batch_size kwargs k = kwargs k := by
  refine ⟨?_, ?_, ?_⟩
  · rw [get_dataloader_eq impl spec p s path download kwargs config hc, hd]
    rcases hk with hk | hk <;> simp [handleDataset, hn, hk]
  · rcases hk with hk | hk <;> simp [mergeKwargs, hk]
  · intro k hki
    cases hkk : kwargs k <;> simp [mergeKwargs, hkk, hki]

/-- Witness for C8: no kwargs supplied — the constructed loader holds the
two-sample dataset, its merged kwargs carry `batch_size = 96` from the
config, and an unrelated key such as `"shuffle"` is absent, as supplied. -/
theorem merged_kwargs_batch_size_witness :
    exampleSpec.get_dataloader exampleImpl Phase.EVAL Split.VAL "/data" false
        (fun _ => none)
      = Except.ok (some ⟨⟨["s0", "s1"]⟩, mergeKwargs 96 fun _ => none⟩) ∧
    mergeKwargs 96 (fun _ => none) "batch_size" = some (PyVal.int 96) ∧
    mergeKwargs 96 (fun _ => none) "shuffle" = none := by
  have h := merged_kwargs_batch_size exampleImpl exampleSpec Phase.EVAL Split.VAL "/data"
    false (fun _ => none) ⟨96, none, none⟩ ⟨["s0", "s1"]⟩ rfl rfl (by decide) (Or.inl rfl)
  exact ⟨h.1, h.2.1, h.2.2 "shuffle" (by decide)⟩

/-- Claim C9: the public read operations never mutate the instance — any
sequence of `get_config`, `search_split` and `get_dataloader` calls leaves
the stored state (resolved search split and the full config map) unchanged. -/
theorem read_ops_preserve_state (impl : SubclassImpl) (spec : DataloaderSpec)
    (ops : List ReadOp) : runOps impl spec ops = spec := by
  induction ops with
  | nil => rfl
  | cons op rest ih => cases op <;> exact ih

/-- Claim C10: a falsy `load_dataset` result is treated as absent even when
it is not the absence marker — for a non-absent dataset of length zero,
`get_dataloader` returns the absence marker and constructs no dataloader. -/
theorem falsy_dataset_returns_absence (impl : SubclassImpl) (spec : DataloaderSpec)
    (p : Phase) (s : Split) (path : String) (download : Bool)
    (kwargs : String → Option PyVal) (config : BatchConfig) (d : Dataset)
    (hc : spec.get_config p s = some config)
    (hd : impl.load_dataset (spec.loadCall config p s path download) = some d)
    (hz : d.data.length = 0) :
    spec.get_dataloader impl p s path download kwargs = Except.ok none := by
  rw [get_dataloader_eq impl spec p s path download kwargs config hc, hd]
  simp [handleDataset, hz]

/-- Witness for C10: `load_dataset` yields `Some` of an empty dataset and no
kwargs are supplied — the result is the absence marker. -/
theorem falsy_dataset_returns_absence_witness :
    emptyDatasetSpec.get_dataloader emptyDatasetImpl Phase.SEARCH Split.VAL "/tmp" false
        (fun _ => none)
      = Except.ok none :=
  falsy_dataset_returns_absence emptyDatasetImpl emptyDatasetSpec Phase.SEARCH Split.VAL
    "/tmp" false (fun _ => none) ⟨32, none, none⟩ ⟨[]⟩ rfl rfl rfl

end AutomlUtils
